import Mathlib

/-!
# glfw_hello_triangle: a trace model of `src/main.c`

The program is a straight line of calls into GLFW, GLAD/OpenGL and the C
standard library, followed by a render loop.  The embedding below keeps the
program text and replaces the outside world by a record of answers:

* every external call becomes an `Event` carrying the arguments the program
  passes (and, for a call with a result, the result the world gave);
* the results of the external calls are fields of `Env`, all of them arbitrary;
* a C function becomes a value of `Run α`: the events it issued, and how it
  ended (it returned, it called `exit`, or it is still inside the render loop
  when the fuel of the loop ran out).

Header macros (`GL_ARRAY_BUFFER`, `GLFW_OPENGL_PROFILE`, `EXIT_FAILURE`, ...)
are kept symbolic.  The program does no floating-point arithmetic; a float
literal is modelled by the rational number its decimal text denotes.

The trace of `main` holds the calls that `main` and `compile_shader` issue.
The two callbacks handed to GLFW (`error_callback`, `framebuffer_size_callback`)
are embedded as functions of their own; when GLFW invokes them is up to GLFW
and is not part of the trace of `main`.

The render loop runs as long as the world keeps the window open, so `main`
takes a fuel: the number of times the loop condition may be evaluated.  A run
that uses up its fuel ends as `Res.running`; statements about a run that
returns ask for enough fuel.
-/

namespace HelloTriangle

/-! ## Data model -/

/-- A C pointer; `0` is the null pointer. -/
abbrev Ptr := Nat

/-- The null pointer. -/
def NULL : Ptr := 0

/-- Macros of `glad/glad.h` and `GLFW/glfw3.h` that `main.c` mentions, kept symbolic. -/
inductive Const where
  | GL_ARRAY_BUFFER
  | GL_STATIC_DRAW
  | GL_FLOAT
  | GL_FALSE
  | GL_TRUE
  | GL_TRIANGLES
  | GL_VERTEX_SHADER
  | GL_FRAGMENT_SHADER
  | GL_COMPILE_STATUS
  | GL_LINK_STATUS
  | GL_VERSION
  | GL_COLOR_BUFFER_BIT
  | GLFW_CONTEXT_VERSION_MAJOR
  | GLFW_CONTEXT_VERSION_MINOR
  | GLFW_OPENGL_FORWARD_COMPAT
  | GLFW_OPENGL_PROFILE
  | GLFW_OPENGL_CORE_PROFILE
  deriving DecidableEq, Repr

/-- An `int` argument written either as a literal or as a header macro. -/
inductive IntArg where
  | lit (n : Int)
  | const (c : Const)
  deriving DecidableEq, Repr

/-- Functions whose address `main.c` passes to a library. -/
inductive Fn where
  | error_callback
  | framebuffer_size_callback
  | glfwGetProcAddress
  deriving DecidableEq, Repr

/-- The two standard streams the program writes to. -/
inductive Stream where
  | stdout
  | stderr
  deriving DecidableEq, Repr

/-- The status passed to `exit`. -/
inductive ExitStatus where
  | EXIT_SUCCESS
  | EXIT_FAILURE
  deriving DecidableEq, Repr

/-- One external call of the program, with its arguments; `ret` and `out` are what the
world answered.  `write` stands for `fputs`, `fprintf` and `printf`: the stream and the
text written. -/
inductive Event where
  | write (stream : Stream) (text : String)
  | glfwSetErrorCallback (cb : Fn)
  | glfwGetVersionString (ret : Option String)
  | glfwInit (ret : Int)
  | glfwWindowHint (hint : Const) (value : IntArg)
  | glfwCreateWindow (width height : Int) (title : String) (monitor share : Ptr) (ret : Ptr)
  | glfwMakeContextCurrent (window : Ptr)
  | gladLoadGLLoader (load : Fn) (ret : Int)
  | glGetString (name : Const) (ret : Option String)
  | glGenBuffers (n : Int) (out : Nat)
  | glBindBuffer (target : Const) (buffer : Nat)
  | glBufferData (target : Const) (size : Nat) (data : List ℚ) (usage : Const)
  | glCreateShader (type : Const) (ret : Nat)
  | glShaderSource (shader : Nat) (count : Int) (string : List String) (length : Ptr)
  | glCompileShader (shader : Nat)
  | glGetShaderiv (shader : Nat) (pname : Const) (out : Int)
  | glGetShaderInfoLog (shader : Nat) (bufSize : Int) (length : Ptr) (out : String)
  | glCreateProgram (ret : Nat)
  | glAttachShader (program shader : Nat)
  | glLinkProgram (program : Nat)
  | glGetProgramiv (program : Nat) (pname : Const) (out : Int)
  | glGetProgramInfoLog (program : Nat) (bufSize : Int) (length : Ptr) (out : String)
  | glDeleteShader (shader : Nat)
  | glGenVertexArrays (n : Int) (out : Nat)
  | glBindVertexArray (array : Nat)
  | glVertexAttribPointer (index : Nat) (size : Int) (type normalized : Const)
      (stride : Nat) (pointer : Nat)
  | glEnableVertexAttribArray (index : Nat)
  | glfwSetFramebufferSizeCallback (window : Ptr) (cb : Fn)
  | glfwSwapInterval (interval : Int)
  | glfwWindowShouldClose (window : Ptr) (ret : Int)
  | glClearColor (red green blue alpha : ℚ)
  | glClear (mask : Const)
  | glUseProgram (program : Nat)
  | glDrawArrays (mode : Const) (first count : Int)
  | glfwSwapBuffers (window : Ptr)
  | glfwPollEvents
  | glfwDestroyWindow (window : Ptr)
  | glfwTerminate
  | glViewport (x y width height : Int)
  deriving DecidableEq, Repr

/-- What the world answers to one call of `compile_shader`. -/
structure ShaderAnswers where
  /-- the handle returned by `glCreateShader` -/
  glCreateShader : Nat
  /-- the value `glGetShaderiv(shader, GL_COMPILE_STATUS, &success)` stores in `success` -/
  compile_status : Int
  /-- the text `glGetShaderInfoLog` stores in `infoLog` -/
  info_log : String

/-- The answers of the outside world, one field per external call whose result the
program uses, in program order.  Every field is arbitrary. -/
structure Env where
  /-- the platform value of `sizeof(float)` -/
  sizeof_float : Nat
  /-- `glfwGetVersionString()`; `none` is `NULL` -/
  glfwGetVersionString : Option String
  /-- `glfwInit()` -/
  glfwInit : Int
  /-- `glfwCreateWindow(...)`; `0` is `NULL` -/
  glfwCreateWindow : Ptr
  /-- `gladLoadGLLoader(...)` -/
  gladLoadGLLoader : Int
  /-- `glGetString(GL_VERSION)`; `none` is `NULL` -/
  glGetString : Option String
  /-- the name `glGenBuffers(1, &vertex_buffer)` stores -/
  vertex_buffer : Nat
  /-- the answers to `compile_shader(GL_VERTEX_SHADER, ...)` -/
  vertex_shader : ShaderAnswers
  /-- the answers to `compile_shader(GL_FRAGMENT_SHADER, ...)` -/
  fragment_shader : ShaderAnswers
  /-- `glCreateProgram()` -/
  glCreateProgram : Nat
  /-- the value `glGetProgramiv(program, GL_LINK_STATUS, &success)` stores -/
  link_status : Int
  /-- the text `glGetProgramInfoLog` stores in `infoLog` -/
  program_info_log : String
  /-- the name `glGenVertexArrays(1, &VAO)` stores -/
  VAO : Nat
  /-- the name `glGenBuffers(1, &VBO)` stores -/
  VBO : Nat
  /-- the answer of the `k`-th evaluation (from 0) of `glfwWindowShouldClose(window)` -/
  glfwWindowShouldClose : Nat → Int

/-! ## Runs -/

/-- How a piece of the program ended. -/
inductive Res (α : Type) where
  /-- it returned `a` -/
  | ret (a : α)
  /-- it called `exit(status)` -/
  | exit (status : ExitStatus)
  /-- the render loop used up its fuel and is still running -/
  | running
  deriving DecidableEq, Repr

/-- The events a piece of the program issued, in order, and how it ended. -/
structure Run (α : Type) where
  trace : List Event
  res : Res α
  deriving DecidableEq, Repr

/-- Sequencing: the second part runs only if the first one returned. -/
def Run.bind {α β : Type} (r : Run α) (f : α → Run β) : Run β :=
  match r.res with
  | .ret a => ⟨r.trace ++ (f a).trace, (f a).res⟩
  | .exit s => ⟨r.trace, .exit s⟩
  | .running => ⟨r.trace, .running⟩

instance : Monad Run where
  pure a := ⟨[], .ret a⟩
  bind := Run.bind

/-- An external call with result `a`, recorded as the event `e`. -/
def call {α : Type} (e : Event) (a : α) : Run α := ⟨[e], .ret a⟩

/-- An external call without a used result. -/
def emit (e : Event) : Run Unit := call e ()

/-- The C library call `exit(status)`: nothing after it runs. -/
def exit {α : Type} (status : ExitStatus) : Run α := ⟨[], .exit status⟩

/-- The call `fputs(s, stream)`. -/
def fputs (s : String) (stream : Stream) : Run Unit := emit (.write stream s)

/-- The call `fprintf(stream, ...)`, given the formatted text. -/
def fprintf (stream : Stream) (text : String) : Run Unit := emit (.write stream text)

/-- The call `printf(...)`, given the formatted text. -/
def printf (text : String) : Run Unit := emit (.write .stdout text)

/-! ## The program -/

/-- Lines 9-13: the six floats of `VERTICES`. -/
def VERTICES : List ℚ := [-1/2, -1/2, 1/2, -1/2, 0, 1/2]

/-- The value of `sizeof(VERTICES)`: six floats. -/
def sizeof_VERTICES (sizeof_float : Nat) : Nat := VERTICES.length * sizeof_float

/-- Lines 15-22, as a C string (the text up to the first NUL). -/
def VERTEX_SHADER_SOURCE : String :=
  "#version 330 core\n" ++
  "layout (location = 0) in vec2 aPos;\n" ++
  "void main()\n" ++
  "\x7b\n" ++
  "   gl_Position = vec4(aPos.x, aPos.y, 0.0, 1.0);\n" ++
  "\x7d\n"

/-- Lines 24-31, as a C string (the text up to the first NUL). -/
def FRAGMENT_SHADER_SOURCE : String :=
  "#version 330 core\n" ++
  "out vec4 FragColor;\n" ++
  "void main()\n" ++
  "\x7b\n" ++
  "   FragColor = vec4(0.0f, 0.3f, 0.8f, 1.0f);\n" ++
  "\x7d\n"

/-- Lines 33-35: `error_callback`. -/
def error_callback (err : Int) (msg : String) : Run Unit :=
  fprintf .stderr ("GLFW callback: " ++ msg ++ " (error code " ++ toString err ++ ")\n")

/-- Lines 37-40: `framebuffer_size_callback`; `window` is unused. -/
def framebuffer_size_callback (_window : Ptr) (width height : Int) : Run Unit :=
  emit (.glViewport 0 0 width height)

/-- Lines 42-58: `compile_shader`. -/
def compile_shader (o : ShaderAnswers) (shader_type : Const) (shader_src : String) :
    Run Nat := do
  let shader ← call (.glCreateShader shader_type o.glCreateShader) o.glCreateShader
  emit (.glShaderSource shader 1 [shader_src] NULL)
  emit (.glCompileShader shader)
  let success ← call (.glGetShaderiv shader .GL_COMPILE_STATUS o.compile_status)
    o.compile_status
  if success = 0 then
    let infoLog ← call (.glGetShaderInfoLog shader 512 NULL o.info_log) o.info_log
    fprintf .stderr ("error: failed to compile vertex shader, " ++ infoLog ++ "\n")
    emit .glfwTerminate
    exit .EXIT_FAILURE
  return shader

/-- Lines 145-155: the `while` loop of `main`.  `fuel` bounds the number of times the
loop condition is evaluated; `k` counts the evaluations made so far. -/
def render_loop (env : Env) (window : Ptr) (program VAO : Nat) : Nat → Nat → Run Unit
  | 0, _ => ⟨[], .running⟩
  | fuel + 1, k => do
    let close ← call (.glfwWindowShouldClose window (env.glfwWindowShouldClose k))
      (env.glfwWindowShouldClose k)
    if close ≠ 0 then
      return ()
    else
      emit (.glClearColor (7/10) (8/10) (7/10) 1)
      emit (.glClear .GL_COLOR_BUFFER_BIT)
      emit (.glUseProgram program)
      emit (.glBindVertexArray VAO)
      emit (.glDrawArrays .GL_TRIANGLES 0 3)
      emit (.glfwSwapBuffers window)
      emit .glfwPollEvents
      render_loop env window program VAO fuel (k + 1)

/-- Lines 60-160: `main`. -/
def main (env : Env) (fuel : Nat) : Run Int := do
  fputs "Hello, Triangle!\n" .stderr
  emit (.glfwSetErrorCallback .error_callback)
  let msg ← call (.glfwGetVersionString env.glfwGetVersionString) env.glfwGetVersionString
  let some msg := msg
    | do
      fputs "error: unable to determine GLFW version\n" .stderr
      exit .EXIT_FAILURE
  fprintf .stderr ("Compiled against GLFW " ++ msg ++ "\n")
  let init ← call (.glfwInit env.glfwInit) env.glfwInit
  if init = 0 then
    fputs "error: unable to initialize GLFW\n" .stderr
    exit .EXIT_FAILURE
  emit (.glfwWindowHint .GLFW_CONTEXT_VERSION_MAJOR (.lit 3))
  emit (.glfwWindowHint .GLFW_CONTEXT_VERSION_MINOR (.lit 3))
  emit (.glfwWindowHint .GLFW_OPENGL_FORWARD_COMPAT (.const .GL_TRUE))
  emit (.glfwWindowHint .GLFW_OPENGL_PROFILE (.const .GLFW_OPENGL_CORE_PROFILE))
  let window ← call (.glfwCreateWindow 800 600 "Hello, Triangle!" NULL NULL
    env.glfwCreateWindow) env.glfwCreateWindow
  if window = NULL then
    fputs "error: unable to create window\n" .stderr
    emit .glfwTerminate
    exit .EXIT_FAILURE
  emit (.glfwMakeContextCurrent window)
  let loaded ← call (.gladLoadGLLoader .glfwGetProcAddress env.gladLoadGLLoader)
    env.gladLoadGLLoader
  if loaded = 0 then
    fputs "error: unable to initialize GLAD\n" .stderr
    emit .glfwTerminate
    exit .EXIT_FAILURE
  let msg ← call (.glGetString .GL_VERSION env.glGetString) env.glGetString
  let some msg := msg
    | do
      fputs "error: unable to determine OpenGL version\n" .stderr
      emit .glfwTerminate
      exit .EXIT_FAILURE
  printf ("OpenGL " ++ msg ++ "\n")
  let vertex_buffer ← call (.glGenBuffers 1 env.vertex_buffer) env.vertex_buffer
  emit (.glBindBuffer .GL_ARRAY_BUFFER vertex_buffer)
  emit (.glBufferData .GL_ARRAY_BUFFER (sizeof_VERTICES env.sizeof_float) VERTICES
    .GL_STATIC_DRAW)
  let vertex_shader ← compile_shader env.vertex_shader .GL_VERTEX_SHADER VERTEX_SHADER_SOURCE
  let fragment_shader ←
    compile_shader env.fragment_shader .GL_FRAGMENT_SHADER FRAGMENT_SHADER_SOURCE
  let program ← call (.glCreateProgram env.glCreateProgram) env.glCreateProgram
  emit (.glAttachShader program vertex_shader)
  emit (.glAttachShader program fragment_shader)
  emit (.glLinkProgram program)
  let success ← call (.glGetProgramiv program .GL_LINK_STATUS env.link_status) env.link_status
  if success = 0 then
    let infoLog ← call (.glGetProgramInfoLog program 512 NULL env.program_info_log)
      env.program_info_log
    fprintf .stderr ("error: failed to link shaders, " ++ infoLog ++ "\n")
    emit .glfwTerminate
    exit .EXIT_FAILURE
  emit (.glDeleteShader vertex_shader)
  emit (.glDeleteShader fragment_shader)
  let VAO ← call (.glGenVertexArrays 1 env.VAO) env.VAO
  let VBO ← call (.glGenBuffers 1 env.VBO) env.VBO
  emit (.glBindVertexArray VAO)
  emit (.glBindBuffer .GL_ARRAY_BUFFER VBO)
  emit (.glBufferData .GL_ARRAY_BUFFER (sizeof_VERTICES env.sizeof_float) VERTICES
    .GL_STATIC_DRAW)
  emit (.glVertexAttribPointer 0 2 .GL_FLOAT .GL_FALSE (2 * env.sizeof_float) 0)
  emit (.glEnableVertexAttribArray 0)
  emit (.glfwSetFramebufferSizeCallback window .framebuffer_size_callback)
  emit (.glfwSwapInterval 1)
  render_loop env window program VAO fuel 0
  emit (.glfwDestroyWindow window)
  emit .glfwTerminate
  return 0

/-- A sample environment: every call succeeds and the window is closed after `n` frames. -/
def sampleEnv (n : Nat) : Env where
  sizeof_float := 4
  glfwGetVersionString := some "3.3.8"
  glfwInit := 1
  glfwCreateWindow := 4096
  gladLoadGLLoader := 1
  glGetString := some "3.3.0"
  vertex_buffer := 1
  vertex_shader := ⟨1, 1, ""⟩
  fragment_shader := ⟨2, 1, ""⟩
  glCreateProgram := 3
  link_status := 1
  program_info_log := ""
  VAO := 1
  VBO := 2
  glfwWindowShouldClose := fun k => if k < n then 0 else 1

/-- A sample environment in which `glfwCreateWindow` returns `NULL`. -/
def noWindowEnv : Env := { sampleEnv 0 with glfwCreateWindow := NULL }

/-- A sample environment in which the fragment shader does not compile. -/
def badFragmentEnv : Env :=
  { sampleEnv 0 with fragment_shader := ⟨2, 0, "0:5: syntax error"⟩ }

/-- A sample environment in which `glfwInit` returns 0. -/
def noInitEnv : Env := { sampleEnv 0 with glfwInit := 0 }

/-! ## Vocabulary of the statements -/

/-- Every check of `main` and `compile_shader` passes: no external call reports a failure. -/
def SetupOK (env : Env) : Prop :=
  env.glfwGetVersionString ≠ none ∧ env.glfwInit ≠ 0 ∧ env.glfwCreateWindow ≠ NULL ∧
  env.gladLoadGLLoader ≠ 0 ∧ env.glGetString ≠ none ∧
  env.vertex_shader.compile_status ≠ 0 ∧ env.fragment_shader.compile_status ≠ 0 ∧
  env.link_status ≠ 0

instance (env : Env) : Decidable (SetupOK env) := by
  unfold SetupOK
  infer_instance

/-- The event is one of the seven checked calls and it reports a failure. -/
def Event.isFailedCheck : Event → Bool
  | .glfwGetVersionString ret => ret.isNone
  | .glfwInit ret => ret == 0
  | .glfwCreateWindow _ _ _ _ _ ret => ret == NULL
  | .gladLoadGLLoader _ ret => ret == 0
  | .glGetString .GL_VERSION ret => ret.isNone
  | .glGetShaderiv _ .GL_COMPILE_STATUS out => out == 0
  | .glGetProgramiv _ .GL_LINK_STATUS out => out == 0
  | _ => false

/-- The event fetches an info log (`glGetShaderInfoLog`, `glGetProgramInfoLog`). -/
def Event.isInfoLogQuery : Event → Bool
  | .glGetShaderInfoLog _ _ _ _ => true
  | .glGetProgramInfoLog _ _ _ _ => true
  | _ => false

/-- The event is a call of `glDrawArrays`. -/
def Event.isDraw : Event → Bool
  | .glDrawArrays _ _ _ => true
  | _ => false

/-- The event is a call of `glfwSwapBuffers`. -/
def Event.isSwap : Event → Bool
  | .glfwSwapBuffers _ => true
  | _ => false

/-- The event is a call of `glfwCreateWindow`. -/
def Event.isCreateWindow : Event → Bool
  | .glfwCreateWindow _ _ _ _ _ _ => true
  | _ => false

/-- The event is a call of `glfwInit`. -/
def Event.isInit : Event → Bool
  | .glfwInit _ => true
  | _ => false

/-- The event is a call into GLFW, GLAD or OpenGL (everything but a write to a stream). -/
def Event.isLibraryCall : Event → Bool
  | .write _ _ => false
  | _ => true

/-- The window an event names, for the calls that take a window. -/
def Event.window? : Event → Option Ptr
  | .glfwMakeContextCurrent w => some w
  | .glfwSetFramebufferSizeCallback w _ => some w
  | .glfwWindowShouldClose w _ => some w
  | .glfwSwapBuffers w => some w
  | .glfwDestroyWindow w => some w
  | _ => none

/-- The event creates, fills, configures, links or deletes a GPU resource. -/
def Event.isResourceCall : Event → Bool
  | .glGenBuffers _ _ => true
  | .glGenVertexArrays _ _ => true
  | .glCreateProgram _ => true
  | .glCreateShader _ _ => true
  | .glBufferData _ _ _ _ => true
  | .glVertexAttribPointer _ _ _ _ _ _ => true
  | .glLinkProgram _ => true
  | .glDeleteShader _ => true
  | _ => false

/-- The event is a call of `glGenBuffers`. -/
def Event.isGenBuffers : Event → Bool
  | .glGenBuffers _ _ => true
  | _ => false

/-- The event is a call of `glGenVertexArrays`. -/
def Event.isGenVertexArrays : Event → Bool
  | .glGenVertexArrays _ _ => true
  | _ => false

/-- The event is a call of `glCreateProgram`. -/
def Event.isCreateProgram : Event → Bool
  | .glCreateProgram _ => true
  | _ => false

/-- The event belongs to the render loop: the loop condition or a call of its body. -/
def Event.isLoopCall : Event → Bool
  | .glfwWindowShouldClose _ _ => true
  | .glClearColor _ _ _ _ => true
  | .glClear _ => true
  | .glUseProgram _ => true
  | .glDrawArrays _ _ _ => true
  | .glfwSwapBuffers _ => true
  | .glfwPollEvents => true
  | _ => false

/-- The calls of one pass through the loop body (lines 146-154). -/
def frame_calls (window : Ptr) (program VAO : Nat) : List Event :=
  [.glClearColor (7/10) (8/10) (7/10) 1, .glClear .GL_COLOR_BUFFER_BIT,
   .glUseProgram program, .glBindVertexArray VAO, .glDrawArrays .GL_TRIANGLES 0 3,
   .glfwSwapBuffers window, .glfwPollEvents]

/-- One iteration of the loop: the condition answers 0 (keep going), then the body. -/
def iteration_calls (window : Ptr) (program VAO : Nat) : List Event :=
  .glfwWindowShouldClose window 0 :: frame_calls window program VAO

/-! ## The OpenGL state the calls act on

Only the part of the OpenGL state machine that the calls of the program address is tracked:
the vertex array binding, the `GL_ARRAY_BUFFER` binding, the data store last given to each
buffer name, the attribute pointers recorded in each vertex array, and the viewport.  The
model records what the calls request; it does not model OpenGL error conditions. -/

/-- What `glVertexAttribPointer` records in the bound vertex array for one attribute. -/
structure AttribPointer where
  /-- the buffer bound to `GL_ARRAY_BUFFER` when the pointer was set -/
  buffer : Nat
  size : Int
  type : Const
  normalized : Const
  stride : Nat
  pointer : Nat
  deriving DecidableEq, Repr

/-- The tracked OpenGL state. -/
structure GLState where
  /-- the bound vertex array; `0` means none -/
  vertex_array_binding : Nat
  /-- the buffer bound to `GL_ARRAY_BUFFER`; `0` means none -/
  array_buffer_binding : Nat
  /-- the size and contents last given to each buffer name by `glBufferData` -/
  buffer_data : Nat → Option (Nat × List ℚ)
  /-- the attribute pointers of each vertex array, by attribute index -/
  attrib : Nat → Nat → Option AttribPointer
  /-- whether the attribute of a vertex array is enabled -/
  attrib_enabled : Nat → Nat → Bool
  /-- the viewport rectangle, when one was set -/
  viewport : Option (Int × Int × Int × Int)

/-- The state of a fresh context: nothing bound, nothing uploaded. -/
def GLState.init : GLState where
  vertex_array_binding := 0
  array_buffer_binding := 0
  buffer_data := fun _ => none
  attrib := fun _ _ => none
  attrib_enabled := fun _ _ => false
  viewport := none

/-- The effect of one call on the tracked state. -/
def GLState.step (s : GLState) : Event → GLState
  | .glBindVertexArray a => { s with vertex_array_binding := a }
  | .glBindBuffer .GL_ARRAY_BUFFER b => { s with array_buffer_binding := b }
  | .glBufferData .GL_ARRAY_BUFFER size data _ =>
    { s with buffer_data := fun b =>
        if b = s.array_buffer_binding then some (size, data) else s.buffer_data b }
  | .glVertexAttribPointer index size type normalized stride pointer =>
    { s with attrib := fun a i =>
        if a = s.vertex_array_binding ∧ i = index then
          some ⟨s.array_buffer_binding, size, type, normalized, stride, pointer⟩
        else s.attrib a i }
  | .glEnableVertexAttribArray index =>
    { s with attrib_enabled := fun a i =>
        if a = s.vertex_array_binding ∧ i = index then true else s.attrib_enabled a i }
  | .glViewport x y width height => { s with viewport := some (x, y, width, height) }
  | _ => s

/-- The state after a sequence of calls. -/
def GLState.run (s : GLState) (calls : List Event) : GLState :=
  calls.foldl GLState.step s

/-- The property `P` holds of every call of the sequence and the state it is issued in,
starting from the state `s`. -/
def AtEveryCall (P : GLState → Event → Prop) : GLState → List Event → Prop
  | _, [] => True
  | s, e :: rest => P s e ∧ AtEveryCall P (s.step e) rest

/-- The calls of lines 67-143 in order, as `main` issues them when no check fails; the
two texts are the GLFW and OpenGL version strings the world answered (empty when the
answer was `NULL`). -/
def setup_calls (env : Env) : List Event :=
  [.write .stderr "Hello, Triangle!\n",
   .glfwSetErrorCallback .error_callback,
   .glfwGetVersionString env.glfwGetVersionString,
   .write .stderr ("Compiled against GLFW " ++ env.glfwGetVersionString.getD "" ++ "\n"),
   .glfwInit env.glfwInit,
   .glfwWindowHint .GLFW_CONTEXT_VERSION_MAJOR (.lit 3),
   .glfwWindowHint .GLFW_CONTEXT_VERSION_MINOR (.lit 3),
   .glfwWindowHint .GLFW_OPENGL_FORWARD_COMPAT (.const .GL_TRUE),
   .glfwWindowHint .GLFW_OPENGL_PROFILE (.const .GLFW_OPENGL_CORE_PROFILE),
   .glfwCreateWindow 800 600 "Hello, Triangle!" NULL NULL env.glfwCreateWindow,
   .glfwMakeContextCurrent env.glfwCreateWindow,
   .gladLoadGLLoader .glfwGetProcAddress env.gladLoadGLLoader,
   .glGetString .GL_VERSION env.glGetString,
   .write .stdout ("OpenGL " ++ env.glGetString.getD "" ++ "\n"),
   .glGenBuffers 1 env.vertex_buffer,
   .glBindBuffer .GL_ARRAY_BUFFER env.vertex_buffer,
   .glBufferData .GL_ARRAY_BUFFER (sizeof_VERTICES env.sizeof_float) VERTICES .GL_STATIC_DRAW,
   .glCreateShader .GL_VERTEX_SHADER env.vertex_shader.glCreateShader,
   .glShaderSource env.vertex_shader.glCreateShader 1 [VERTEX_SHADER_SOURCE] NULL,
   .glCompileShader env.vertex_shader.glCreateShader,
   .glGetShaderiv env.vertex_shader.glCreateShader .GL_COMPILE_STATUS
     env.vertex_shader.compile_status,
   .glCreateShader .GL_FRAGMENT_SHADER env.fragment_shader.glCreateShader,
   .glShaderSource env.fragment_shader.glCreateShader 1 [FRAGMENT_SHADER_SOURCE] NULL,
   .glCompileShader env.fragment_shader.glCreateShader,
   .glGetShaderiv env.fragment_shader.glCreateShader .GL_COMPILE_STATUS
     env.fragment_shader.compile_status,
   .glCreateProgram env.glCreateProgram,
   .glAttachShader env.glCreateProgram env.vertex_shader.glCreateShader,
   .glAttachShader env.glCreateProgram env.fragment_shader.glCreateShader,
   .glLinkProgram env.glCreateProgram,
   .glGetProgramiv env.glCreateProgram .GL_LINK_STATUS env.link_status,
   .glDeleteShader env.vertex_shader.glCreateShader,
   .glDeleteShader env.fragment_shader.glCreateShader,
   .glGenVertexArrays 1 env.VAO,
   .glGenBuffers 1 env.VBO,
   .glBindVertexArray env.VAO,
   .glBindBuffer .GL_ARRAY_BUFFER env.VBO,
   .glBufferData .GL_ARRAY_BUFFER (sizeof_VERTICES env.sizeof_float) VERTICES .GL_STATIC_DRAW,
   .glVertexAttribPointer 0 2 .GL_FLOAT .GL_FALSE (2 * env.sizeof_float) 0,
   .glEnableVertexAttribArray 0,
   .glfwSetFramebufferSizeCallback env.glfwCreateWindow .framebuffer_size_callback,
   .glfwSwapInterval 1]

/-- The checks of the program, in program order. -/
inductive Check where
  /-- line 72: `glfwGetVersionString()` is not `NULL` -/
  | version
  /-- line 78: `glfwInit()` is not 0 -/
  | init
  /-- line 89: `glfwCreateWindow(...)` is not `NULL` -/
  | window
  /-- line 96: `gladLoadGLLoader(...)` is not 0 -/
  | glad
  /-- line 103: `glGetString(GL_VERSION)` is not `NULL` -/
  | gl_version
  /-- line 50, called from line 114: the vertex shader compiled -/
  | vertex_shader
  /-- line 50, called from line 115: the fragment shader compiled -/
  | fragment_shader
  /-- line 122: the program linked -/
  | link
  deriving DecidableEq, Repr

/-- The world lets the check pass. -/
def Check.passes (env : Env) : Check → Prop
  | .version => env.glfwGetVersionString ≠ none
  | .init => env.glfwInit ≠ 0
  | .window => env.glfwCreateWindow ≠ NULL
  | .glad => env.gladLoadGLLoader ≠ 0
  | .gl_version => env.glGetString ≠ none
  | .vertex_shader => env.vertex_shader.compile_status ≠ 0
  | .fragment_shader => env.fragment_shader.compile_status ≠ 0
  | .link => env.link_status ≠ 0

instance (env : Env) (c : Check) : Decidable (c.passes env) := by
  cases c <;> unfold Check.passes <;> infer_instance

/-- The number of calls of `setup_calls` issued up to and including the checked call. -/
def Check.position : Check → Nat
  | .version => 3
  | .init => 5
  | .window => 10
  | .glad => 12
  | .gl_version => 13
  | .vertex_shader => 21
  | .fragment_shader => 25
  | .link => 30

/-- The calls the program issues after the check failed, up to `exit(EXIT_FAILURE)`. -/
def Check.aftermath (env : Env) : Check → List Event
  | .version => [.write .stderr "error: unable to determine GLFW version\n"]
  | .init => [.write .stderr "error: unable to initialize GLFW\n"]
  | .window => [.write .stderr "error: unable to create window\n", .glfwTerminate]
  | .glad => [.write .stderr "error: unable to initialize GLAD\n", .glfwTerminate]
  | .gl_version =>
    [.write .stderr "error: unable to determine OpenGL version\n", .glfwTerminate]
  | .vertex_shader =>
    [.glGetShaderInfoLog env.vertex_shader.glCreateShader 512 NULL env.vertex_shader.info_log,
     .write .stderr
       ("error: failed to compile vertex shader, " ++ env.vertex_shader.info_log ++ "\n"),
     .glfwTerminate]
  | .fragment_shader =>
    [.glGetShaderInfoLog env.fragment_shader.glCreateShader 512 NULL
       env.fragment_shader.info_log,
     .write .stderr
       ("error: failed to compile vertex shader, " ++ env.fragment_shader.info_log ++ "\n"),
     .glfwTerminate]
  | .link =>
    [.glGetProgramInfoLog env.glCreateProgram 512 NULL env.program_info_log,
     .write .stderr ("error: failed to link shaders, " ++ env.program_info_log ++ "\n"),
     .glfwTerminate]

/-! ## Lemmas on runs -/

theorem bind_def {α β : Type} (r : Run α) (f : α → Run β) : (r >>= f) = r.bind f := rfl

theorem pure_def {α : Type} (a : α) : (pure a : Run α) = ⟨[], .ret a⟩ := rfl

theorem bind_ret {α β : Type} (t : List Event) (a : α) (f : α → Run β) :
    Run.bind ⟨t, .ret a⟩ f = ⟨t ++ (f a).trace, (f a).res⟩ := rfl

theorem bind_exit {α β : Type} (t : List Event) (s : ExitStatus) (f : α → Run β) :
    Run.bind ⟨t, .exit s⟩ f = ⟨t, .exit s⟩ := rfl

theorem bind_running {α β : Type} (t : List Event) (f : α → Run β) :
    Run.bind ⟨t, .running⟩ f = ⟨t, .running⟩ := rfl

theorem some_of_ne_none {α : Type} {o : Option α} (h : o ≠ none) : ∃ a, o = some a := by
  cases o with
  | none => exact absurd rfl h
  | some a => exact ⟨a, rfl⟩

/-- The run of `compile_shader` when the shader compiles. -/
theorem compile_shader_ok (o : ShaderAnswers) (shader_type : Const) (shader_src : String)
    (h : o.compile_status ≠ 0) :
    compile_shader o shader_type shader_src =
      ⟨[.glCreateShader shader_type o.glCreateShader,
        .glShaderSource o.glCreateShader 1 [shader_src] NULL,
        .glCompileShader o.glCreateShader,
        .glGetShaderiv o.glCreateShader .GL_COMPILE_STATUS o.compile_status],
       .ret o.glCreateShader⟩ := by
  simp [compile_shader, bind_def, pure_def, call, emit, bind_ret, h]

/-- The run of `compile_shader` when the shader does not compile. -/
theorem compile_shader_fail (o : ShaderAnswers) (shader_type : Const) (shader_src : String)
    (h : o.compile_status = 0) :
    compile_shader o shader_type shader_src =
      ⟨[.glCreateShader shader_type o.glCreateShader,
        .glShaderSource o.glCreateShader 1 [shader_src] NULL,
        .glCompileShader o.glCreateShader,
        .glGetShaderiv o.glCreateShader .GL_COMPILE_STATUS o.compile_status,
        .glGetShaderInfoLog o.glCreateShader 512 NULL o.info_log,
        .write .stderr ("error: failed to compile vertex shader, " ++ o.info_log ++ "\n"),
        .glfwTerminate],
       .exit .EXIT_FAILURE⟩ := by
  simp [compile_shader, bind_def, pure_def, call, emit, exit, fprintf, bind_ret, bind_exit, h]

/-- One step of the render loop when the window is to be closed. -/
theorem render_loop_close (env : Env) (window : Ptr) (program VAO fuel k : Nat)
    (h : env.glfwWindowShouldClose k ≠ 0) :
    render_loop env window program VAO (fuel + 1) k =
      ⟨[.glfwWindowShouldClose window (env.glfwWindowShouldClose k)], .ret ()⟩ := by
  simp [render_loop, bind_def, pure_def, call, bind_ret, h]

/-- One step of the render loop when the window stays open. -/
theorem render_loop_frame (env : Env) (window : Ptr) (program VAO fuel k : Nat)
    (h : env.glfwWindowShouldClose k = 0) :
    render_loop env window program VAO (fuel + 1) k =
      ⟨iteration_calls window program VAO ++
          (render_loop env window program VAO fuel (k + 1)).trace,
        (render_loop env window program VAO fuel (k + 1)).res⟩ := by
  simp [render_loop, bind_def, call, emit, bind_ret, h, iteration_calls, frame_calls]

/-- The run of `main` when every check passes: the setup, the loop, and, once the loop is
left, the shutdown. -/
theorem main_ok (env : Env) (fuel : Nat) (h : SetupOK env) :
    main env fuel =
      Run.bind (⟨setup_calls env, .ret ()⟩ : Run Unit) (fun _ =>
        Run.bind
          (render_loop env env.glfwCreateWindow env.glCreateProgram env.VAO fuel 0)
          (fun _ => ⟨[.glfwDestroyWindow env.glfwCreateWindow, .glfwTerminate], .ret 0⟩)) := by
  obtain ⟨h1, h2, h3, h4, h5, h6, h7, h8⟩ := h
  obtain ⟨v, hv⟩ := some_of_ne_none h1
  obtain ⟨g, hg⟩ := some_of_ne_none h5
  simp only [NULL] at h3
  simp [main, bind_def, pure_def, call, emit, fputs, fprintf, printf, bind_ret,
    compile_shader_ok, setup_calls, hv, hg, h2, h3, h4, h6, h7, h8, NULL]

/-- The run of `main` when the check `c` is the first one to fail: the setup up to the
checked call, then the calls of the failure branch, then `exit(EXIT_FAILURE)`. -/
theorem main_fail (env : Env) (fuel : Nat) (c : Check) (hc : ¬ c.passes env)
    (hprev : ∀ d : Check, d.position < c.position → d.passes env) :
    main env fuel =
      ⟨(setup_calls env).take c.position ++ c.aftermath env, .exit .EXIT_FAILURE⟩ := by
  have p1 := hprev .version
  have p2 := hprev .init
  have p3 := hprev .window
  have p4 := hprev .glad
  have p5 := hprev .gl_version
  have p6 := hprev .vertex_shader
  have p7 := hprev .fragment_shader
  cases c <;> simp only [Check.position, Check.passes, NULL, ne_eq, not_not,
    Nat.lt_irrefl, false_implies, true_implies, Nat.reduceLT] at hc p1 p2 p3 p4 p5 p6 p7
  · simp [main, bind_def, pure_def, call, emit, exit, fputs, bind_ret, bind_exit,
      setup_calls, Check.position, Check.aftermath, hc]
  all_goals obtain ⟨v, hv⟩ := some_of_ne_none p1
  · simp [main, bind_def, pure_def, call, emit, exit, fputs, fprintf, bind_ret, bind_exit,
      setup_calls, Check.position, Check.aftermath, hc, hv]
  · simp [main, bind_def, pure_def, call, emit, exit, fputs, fprintf, bind_ret, bind_exit,
      setup_calls, Check.position, Check.aftermath, hc, hv, p2, NULL]
  · simp [main, bind_def, pure_def, call, emit, exit, fputs, fprintf, bind_ret, bind_exit,
      setup_calls, Check.position, Check.aftermath, hc, hv, p2, p3, NULL]
  · simp [main, bind_def, pure_def, call, emit, exit, fputs, fprintf, bind_ret, bind_exit,
      setup_calls, Check.position, Check.aftermath, hc, hv, p2, p3, p4, NULL]
  all_goals obtain ⟨g, hg⟩ := some_of_ne_none p5
  · simp [main, bind_def, pure_def, call, emit, exit, fputs, fprintf, printf, bind_ret,
      bind_exit, compile_shader_fail, setup_calls, Check.position, Check.aftermath, hc, hv,
      hg, p2, p3, p4, NULL]
  · simp [main, bind_def, pure_def, call, emit, exit, fputs, fprintf, printf, bind_ret,
      bind_exit, compile_shader_fail, compile_shader_ok, setup_calls, Check.position,
      Check.aftermath, hc, hv, hg, p2, p3, p4, p6, NULL]
  · simp [main, bind_def, pure_def, call, emit, exit, fputs, fprintf, printf, bind_ret,
      bind_exit, compile_shader_ok, setup_calls, Check.position, Check.aftermath, hc, hv,
      hg, p2, p3, p4, p6, p7, NULL]

/-- Every check passes exactly when the setup is fine. -/
theorem setupOK_iff (env : Env) : SetupOK env ↔ ∀ c : Check, c.passes env := by
  constructor
  · rintro ⟨h1, h2, h3, h4, h5, h6, h7, h8⟩ c
    cases c <;> assumption
  · intro h
    exact ⟨h .version, h .init, h .window, h .glad, h .gl_version, h .vertex_shader,
      h .fragment_shader, h .link⟩

/-- When some check fails there is a first one. -/
theorem exists_first_failure (env : Env) (h : ¬ SetupOK env) :
    ∃ c : Check, ¬ c.passes env ∧ ∀ d : Check, d.position < c.position → d.passes env := by
  by_cases h1 : Check.passes env .version
  swap
  · exact ⟨.version, h1, fun d hd => by cases d <;> simp [Check.position] at hd⟩
  by_cases h2 : Check.passes env .init
  swap
  · exact ⟨.init, h2, fun d hd => by cases d <;> simp [Check.position] at hd; assumption⟩
  by_cases h3 : Check.passes env .window
  swap
  · exact ⟨.window, h3, fun d hd => by cases d <;> simp [Check.position] at hd <;> assumption⟩
  by_cases h4 : Check.passes env .glad
  swap
  · exact ⟨.glad, h4, fun d hd => by cases d <;> simp [Check.position] at hd <;> assumption⟩
  by_cases h5 : Check.passes env .gl_version
  swap
  · exact ⟨.gl_version, h5,
      fun d hd => by cases d <;> simp [Check.position] at hd <;> assumption⟩
  by_cases h6 : Check.passes env .vertex_shader
  swap
  · exact ⟨.vertex_shader, h6,
      fun d hd => by cases d <;> simp [Check.position] at hd <;> assumption⟩
  by_cases h7 : Check.passes env .fragment_shader
  swap
  · exact ⟨.fragment_shader, h7,
      fun d hd => by cases d <;> simp [Check.position] at hd <;> assumption⟩
  by_cases h8 : Check.passes env .link
  swap
  · exact ⟨.link, h8, fun d hd => by cases d <;> simp [Check.position] at hd <;> assumption⟩
  exact absurd ((setupOK_iff env).mpr (fun c => by cases c <;> assumption)) h

/-- The render loop never calls `exit`. -/
theorem render_loop_res (env : Env) (window : Ptr) (program VAO : Nat) :
    ∀ fuel k : Nat,
      (render_loop env window program VAO fuel k).res = .ret () ∨
      (render_loop env window program VAO fuel k).res = .running := by
  intro fuel
  induction fuel with
  | zero => intro k; right; rfl
  | succ fuel ih =>
    intro k
    by_cases h : env.glfwWindowShouldClose k = 0
    · rw [render_loop_frame env window program VAO fuel k h]
      exact ih (k + 1)
    · rw [render_loop_close env window program VAO fuel k h]
      left; rfl

/-- The shape of a run of the render loop: a number of identical iterations, then either
nothing (the fuel ran out) or the loop condition answering that the window is to close. -/
theorem render_loop_shape (env : Env) (window : Ptr) (program VAO : Nat) :
    ∀ fuel k : Nat, ∃ n : Nat, ∃ tail : List Event,
      (render_loop env window program VAO fuel k).trace =
        (List.replicate n (iteration_calls window program VAO)).flatten ++ tail ∧
      ((tail = [] ∧ (render_loop env window program VAO fuel k).res = .running) ∨
       (∃ r : Int, r ≠ 0 ∧ tail = [.glfwWindowShouldClose window r] ∧
          (render_loop env window program VAO fuel k).res = .ret ())) := by
  intro fuel
  induction fuel with
  | zero => intro k; exact ⟨0, [], rfl, Or.inl ⟨rfl, rfl⟩⟩
  | succ fuel ih =>
    intro k
    by_cases h : env.glfwWindowShouldClose k = 0
    · obtain ⟨n, tail, ht, hres⟩ := ih (k + 1)
      refine ⟨n + 1, tail, ?_, ?_⟩
      · rw [render_loop_frame env window program VAO fuel k h]
        simp [List.replicate_succ, ht]
      · rw [render_loop_frame env window program VAO fuel k h]
        exact hres
    · refine ⟨0, [.glfwWindowShouldClose window (env.glfwWindowShouldClose k)], ?_, ?_⟩
      · rw [render_loop_close env window program VAO fuel k h]
        rfl
      · right
        refine ⟨env.glfwWindowShouldClose k, h, rfl, ?_⟩
        rw [render_loop_close env window program VAO fuel k h]

/-- The render loop on a world that answers "keep going" `n` times and then "close". -/
theorem render_loop_exact (env : Env) (window : Ptr) (program VAO : Nat) :
    ∀ n fuel k : Nat, n < fuel →
      (∀ i : Nat, i < n → env.glfwWindowShouldClose (k + i) = 0) →
      env.glfwWindowShouldClose (k + n) ≠ 0 →
      render_loop env window program VAO fuel k =
        ⟨(List.replicate n (iteration_calls window program VAO)).flatten ++
            [.glfwWindowShouldClose window (env.glfwWindowShouldClose (k + n))],
          .ret ()⟩ := by
  intro n
  induction n with
  | zero =>
    intro fuel k hf _ hn
    obtain ⟨f, rfl⟩ : ∃ f, fuel = f + 1 := ⟨fuel - 1, by omega⟩
    simpa using render_loop_close env window program VAO f k (by simpa using hn)
  | succ n ih =>
    intro fuel k hf h0 hn
    obtain ⟨f, rfl⟩ : ∃ f, fuel = f + 1 := ⟨fuel - 1, by omega⟩
    have hk : env.glfwWindowShouldClose k = 0 := by simpa using h0 0 (by omega)
    have e : ∀ i : Nat, k + 1 + i = k + (i + 1) := fun i => by omega
    have hrec := ih f (k + 1) (by omega)
      (fun i hi => by rw [e i]; exact h0 (i + 1) (by omega))
      (by rw [e n]; exact hn)
    rw [render_loop_frame env window program VAO f k hk, hrec, e n]
    simp [List.replicate_succ]

/-- With no fuel the run of a fine setup is the setup alone. -/
theorem main_zero (env : Env) (h : SetupOK env) :
    main env 0 = ⟨setup_calls env, .running⟩ := by
  rw [main_ok env 0 h]
  simp [bind_ret, bind_running, render_loop]

/-- The shape of a run of `main` when every check passes. -/
theorem main_ok_shape (env : Env) (fuel : Nat) (h : SetupOK env) :
    ∃ n : Nat, ∃ tail : List Event,
      (main env fuel).trace =
        setup_calls env ++
          ((List.replicate n
            (iteration_calls env.glfwCreateWindow env.glCreateProgram env.VAO)).flatten ++
            tail) ∧
      ((tail = [] ∧ (main env fuel).res = .running) ∨
       (∃ r : Int, r ≠ 0 ∧
          tail = [.glfwWindowShouldClose env.glfwCreateWindow r,
                  .glfwDestroyWindow env.glfwCreateWindow, .glfwTerminate] ∧
          (main env fuel).res = .ret 0)) := by
  obtain ⟨n, tail, ht, hres⟩ :=
    render_loop_shape env env.glfwCreateWindow env.glCreateProgram env.VAO fuel 0
  rw [main_ok env fuel h]
  rcases hres with ⟨rfl, hr⟩ | ⟨r, hr0, rfl, hr⟩
  · refine ⟨n, [], ?_, Or.inl ⟨rfl, ?_⟩⟩
    · simp [bind_ret, Run.bind, hr, ht]
    · simp [bind_ret, Run.bind, hr]
  · refine ⟨n, _, ?_, Or.inr ⟨r, hr0, rfl, ?_⟩⟩
    · simp [bind_ret, Run.bind, hr, ht]
    · simp [bind_ret, Run.bind, hr]

/-- The run of `main` when every check passes and the window is closed after `n` frames. -/
theorem main_exact (env : Env) (n fuel : Nat) (h : SetupOK env) (hf : n < fuel)
    (h0 : ∀ i : Nat, i < n → env.glfwWindowShouldClose i = 0)
    (hn : env.glfwWindowShouldClose n ≠ 0) :
    main env fuel =
      ⟨setup_calls env ++
          ((List.replicate n
            (iteration_calls env.glfwCreateWindow env.glCreateProgram env.VAO)).flatten ++
           [.glfwWindowShouldClose env.glfwCreateWindow (env.glfwWindowShouldClose n),
            .glfwDestroyWindow env.glfwCreateWindow, .glfwTerminate]),
        .ret 0⟩ := by
  have hl := render_loop_exact env env.glfwCreateWindow env.glCreateProgram env.VAO n fuel 0 hf
    (fun i hi => by simpa using h0 i hi) (by simpa using hn)
  rw [main_ok env fuel h, hl]
  simp [bind_ret]

/-- A property of every call of `replicate n l` flattened follows from the property on `l`. -/
theorem forall_mem_replicate_flatten {P : Event → Prop} (n : Nat) (l : List Event)
    (h : ∀ e ∈ l, P e) : ∀ e ∈ (List.replicate n l).flatten, P e := by
  intro e he
  rcases List.mem_flatten.mp he with ⟨l1, hl1, hel1⟩
  rw [(List.mem_replicate.mp hl1).2] at hel1
  exact h e hel1

/-- A property of every call of some iterations followed by a tail. -/
theorem forall_mem_loop (P : Event → Prop) (n : Nat) (l tail : List Event)
    (hl : ∀ e ∈ l, P e) (ht : ∀ e ∈ tail, P e) :
    ∀ e ∈ (List.replicate n l).flatten ++ tail, P e := by
  intro e he
  rcases List.mem_append.mp he with he | he
  · exact forall_mem_replicate_flatten n l hl e he
  · exact ht e he

/-- Counting in `replicate n l` flattened. -/
theorem countP_replicate_flatten (p : Event → Bool) (n : Nat) (l : List Event) :
    ((List.replicate n l).flatten).countP p = n * l.countP p := by
  induction n with
  | zero => simp
  | succ n ih => simp [List.replicate_succ, ih, Nat.succ_mul, Nat.add_comm]

/-- A property of every call of a run of `main` follows from the property on the calls of
the setup, of an iteration, of the shutdown and of the failure branches. -/
theorem main_forall (env : Env) (fuel : Nat) (P : Event → Prop)
    (hs : ∀ e ∈ setup_calls env, P e)
    (hi : ∀ e ∈ iteration_calls env.glfwCreateWindow env.glCreateProgram env.VAO, P e)
    (hc : ∀ r : Int, r ≠ 0 → P (.glfwWindowShouldClose env.glfwCreateWindow r))
    (hd : P (.glfwDestroyWindow env.glfwCreateWindow))
    (ht : P .glfwTerminate)
    (hf : ∀ c : Check, ¬ c.passes env → ∀ e ∈ c.aftermath env, P e) :
    ∀ e ∈ (main env fuel).trace, P e := by
  intro e he
  by_cases h : SetupOK env
  · obtain ⟨n, tail, htr, hres⟩ := main_ok_shape env fuel h
    rw [htr] at he
    rcases List.mem_append.mp he with he | he
    · exact hs e he
    rcases List.mem_append.mp he with he | he
    · exact forall_mem_replicate_flatten n _ hi e he
    rcases hres with ⟨rfl, _⟩ | ⟨r, hr0, rfl, _⟩
    · simp at he
    · simp only [List.mem_cons, List.mem_singleton, List.not_mem_nil, or_false] at he
      rcases he with rfl | rfl | rfl
      · exact hc r hr0
      · exact hd
      · exact ht
  · obtain ⟨c, hcf, hprev⟩ := exists_first_failure env h
    rw [main_fail env fuel c hcf hprev] at he
    rcases List.mem_append.mp he with he | he
    · exact hs e (List.mem_of_mem_take he)
    · exact hf c hcf e he

/-! ## Lemmas on the tracked OpenGL state -/

theorem run_cons (s : GLState) (e : Event) (l : List Event) :
    s.run (e :: l) = (s.step e).run l := rfl

theorem run_append (s : GLState) (l1 l2 : List Event) :
    s.run (l1 ++ l2) = (s.run l1).run l2 := by
  simp [GLState.run, List.foldl_append]

/-- The predicate `AtEveryCall` says the property holds of each call and the state
reached by the calls before it. -/
theorem atEveryCall_iff (P : GLState → Event → Prop) (l : List Event) :
    ∀ s : GLState, AtEveryCall P s l ↔
      ∀ (pre : List Event) (e : Event) (post : List Event),
        l = pre ++ e :: post → P (s.run pre) e := by
  induction l with
  | nil =>
    intro s
    simp [AtEveryCall]
  | cons a l ih =>
    intro s
    constructor
    · rintro ⟨ha, hl⟩ pre e post heq
      cases pre with
      | nil =>
        simp at heq
        rw [← heq.1]
        exact ha
      | cons b pre =>
        simp at heq
        rw [run_cons, ← heq.1]
        exact (ih (s.step a)).mp hl pre e post heq.2
    · intro h
      refine ⟨h [] a l rfl, (ih (s.step a)).mpr fun pre e post heq => ?_⟩
      have := h (a :: pre) e post (by rw [heq]; rfl)
      rwa [run_cons] at this

/-- C10. For every `shader_type` and `shader_src`, `compile_shader` creates one shader of
that type, gives it `shader_src` as its single source string and compiles it.  When the
compile status is not 0 it returns the handle of that shader and writes nothing.  When
the status is 0 it does not return: it writes the text
"error: failed to compile vertex shader, " followed by the info log to stderr (the same
text for every `shader_type`, so also for `GL_FRAGMENT_SHADER`), calls `glfwTerminate`
and exits with `EXIT_FAILURE`. -/
theorem C10_compile_shader_contract (o : ShaderAnswers) (shader_type : Const)
    (shader_src : String) :
    (o.compile_status ≠ 0 →
      compile_shader o shader_type shader_src =
        ⟨[.glCreateShader shader_type o.glCreateShader,
          .glShaderSource o.glCreateShader 1 [shader_src] NULL,
          .glCompileShader o.glCreateShader,
          .glGetShaderiv o.glCreateShader .GL_COMPILE_STATUS o.compile_status],
         .ret o.glCreateShader⟩) ∧
    (o.compile_status = 0 →
      compile_shader o shader_type shader_src =
        ⟨[.glCreateShader shader_type o.glCreateShader,
          .glShaderSource o.glCreateShader 1 [shader_src] NULL,
          .glCompileShader o.glCreateShader,
          .glGetShaderiv o.glCreateShader .GL_COMPILE_STATUS o.compile_status,
          .glGetShaderInfoLog o.glCreateShader 512 NULL o.info_log,
          .write .stderr ("error: failed to compile vertex shader, " ++ o.info_log ++ "\n"),
          .glfwTerminate],
         .exit .EXIT_FAILURE⟩) ∧
    (∀ other_type : Const,
      (compile_shader o other_type shader_src).trace.filter (fun e => !e.isLibraryCall) =
        (compile_shader o shader_type shader_src).trace.filter (fun e => !e.isLibraryCall)) := by
  refine ⟨compile_shader_ok o shader_type shader_src,
    compile_shader_fail o shader_type shader_src, fun other_type => ?_⟩
  by_cases h : o.compile_status = 0
  · rw [compile_shader_fail o other_type shader_src h,
      compile_shader_fail o shader_type shader_src h]
    simp [Event.isLibraryCall]
  · rw [compile_shader_ok o other_type shader_src h,
      compile_shader_ok o shader_type shader_src h]
    simp [Event.isLibraryCall]

/-- C10 on concrete answers: a fragment shader that fails to compile with the info log
"0:1: syntax error" is reported as a vertex shader, and a vertex shader that compiles is
returned silently. -/
theorem C10_compile_shader_contract_witness :
    compile_shader ⟨7, 0, "0:1: syntax error"⟩ .GL_FRAGMENT_SHADER FRAGMENT_SHADER_SOURCE =
      ⟨[.glCreateShader .GL_FRAGMENT_SHADER 7,
        .glShaderSource 7 1 [FRAGMENT_SHADER_SOURCE] NULL,
        .glCompileShader 7,
        .glGetShaderiv 7 .GL_COMPILE_STATUS 0,
        .glGetShaderInfoLog 7 512 NULL "0:1: syntax error",
        .write .stderr "error: failed to compile vertex shader, 0:1: syntax error\n",
        .glfwTerminate],
       .exit .EXIT_FAILURE⟩ ∧
    compile_shader ⟨7, 1, ""⟩ .GL_VERTEX_SHADER VERTEX_SHADER_SOURCE =
      ⟨[.glCreateShader .GL_VERTEX_SHADER 7,
        .glShaderSource 7 1 [VERTEX_SHADER_SOURCE] NULL,
        .glCompileShader 7,
        .glGetShaderiv 7 .GL_COMPILE_STATUS 1],
       .ret 7⟩ :=
  ⟨(C10_compile_shader_contract ⟨7, 0, "0:1: syntax error"⟩ .GL_FRAGMENT_SHADER
      FRAGMENT_SHADER_SOURCE).2.1 rfl,
   (C10_compile_shader_contract ⟨7, 1, ""⟩ .GL_VERTEX_SHADER VERTEX_SHADER_SOURCE).1
      (by decide)⟩

/-- C2. In every run in which the setup succeeds, the calls after the setup are a number
of iterations of the render loop, each of them the same sequence: the loop condition
answering 0, then `glClearColor(0.7, 0.8, 0.7, 1.0)`, `glClear(GL_COLOR_BUFFER_BIT)`,
`glUseProgram(program)`, `glBindVertexArray(VAO)`, `glDrawArrays(GL_TRIANGLES, 0, 3)`,
`glfwSwapBuffers(window)`, `glfwPollEvents()`, in this order.  After the iterations comes
either nothing (the loop is still running) or the loop condition answering non-zero and
the shutdown; neither the setup nor that tail contains a call of the loop body. -/
theorem C2_every_frame_same_calls (env : Env) (fuel : Nat) (h : SetupOK env) :
    ∃ n : Nat, ∃ tail : List Event,
      (main env fuel).trace =
        (main env 0).trace ++
          ((List.replicate n
            [Event.glfwWindowShouldClose env.glfwCreateWindow 0,
             Event.glClearColor (7/10) (8/10) (7/10) 1,
             Event.glClear .GL_COLOR_BUFFER_BIT,
             Event.glUseProgram env.glCreateProgram,
             Event.glBindVertexArray env.VAO,
             Event.glDrawArrays .GL_TRIANGLES 0 3,
             Event.glfwSwapBuffers env.glfwCreateWindow,
             Event.glfwPollEvents]).flatten ++ tail) ∧
      (tail = [] ∨
        ∃ r : Int, r ≠ 0 ∧
          tail = [.glfwWindowShouldClose env.glfwCreateWindow r,
                  .glfwDestroyWindow env.glfwCreateWindow, .glfwTerminate]) ∧
      (∀ e ∈ (main env 0).trace, e.isLoopCall = false) ∧
      (∀ e ∈ tail, e ∉ frame_calls env.glfwCreateWindow env.glCreateProgram env.VAO) := by
  obtain ⟨n, tail, ht, hres⟩ := main_ok_shape env fuel h
  refine ⟨n, tail, ?_, ?_, ?_, ?_⟩
  · rw [ht, main_zero env h]
    rfl
  · rcases hres with ⟨rfl, _⟩ | ⟨r, hr0, rfl, _⟩
    · exact Or.inl rfl
    · exact Or.inr ⟨r, hr0, rfl⟩
  · rw [main_zero env h]
    simp [setup_calls, Event.isLoopCall]
  · rcases hres with ⟨rfl, _⟩ | ⟨r, hr0, rfl, _⟩
    · simp
    · simp [frame_calls]

/-- C2 on the sample world that closes the window after two frames. -/
theorem C2_every_frame_same_calls_witness :
    SetupOK (sampleEnv 2) ∧
    ∃ n : Nat, ∃ tail : List Event,
      (main (sampleEnv 2) 5).trace =
        (main (sampleEnv 2) 0).trace ++
          ((List.replicate n
            [Event.glfwWindowShouldClose 4096 0,
             Event.glClearColor (7/10) (8/10) (7/10) 1,
             Event.glClear .GL_COLOR_BUFFER_BIT,
             Event.glUseProgram 3,
             Event.glBindVertexArray 1,
             Event.glDrawArrays .GL_TRIANGLES 0 3,
             Event.glfwSwapBuffers 4096,
             Event.glfwPollEvents]).flatten ++ tail) ∧
      (tail = [] ∨
        ∃ r : Int, r ≠ 0 ∧
          tail = [.glfwWindowShouldClose 4096 r, .glfwDestroyWindow 4096, .glfwTerminate]) ∧
      (∀ e ∈ (main (sampleEnv 2) 0).trace, e.isLoopCall = false) ∧
      (∀ e ∈ tail, e ∉ frame_calls 4096 3 1) :=
  ⟨by decide, C2_every_frame_same_calls (sampleEnv 2) 5 (by decide)⟩

/-- C3. In every run in which the setup succeeds and `glfwWindowShouldClose` answers 0
(false) `n` times and then non-zero (true), with fuel for more than `n` evaluations of the
loop condition, `main` issues the setup, then exactly `n` iterations, then the closing
answer of the loop condition, `glfwDestroyWindow(window)` and `glfwTerminate()`, and
returns 0; the run has exactly `n` calls of `glDrawArrays` and `n` of `glfwSwapBuffers`
(none when `n = 0`). -/
theorem C3_draws_n_frames_then_shuts_down (env : Env) (n fuel : Nat) (h : SetupOK env)
    (h0 : ∀ i : Nat, i < n → env.glfwWindowShouldClose i = 0)
    (hn : env.glfwWindowShouldClose n ≠ 0) (hf : n < fuel) :
    main env fuel =
      ⟨(main env 0).trace ++
          ((List.replicate n
            (iteration_calls env.glfwCreateWindow env.glCreateProgram env.VAO)).flatten ++
           [.glfwWindowShouldClose env.glfwCreateWindow (env.glfwWindowShouldClose n),
            .glfwDestroyWindow env.glfwCreateWindow, .glfwTerminate]),
        .ret 0⟩ ∧
    (main env fuel).trace.countP Event.isDraw = n ∧
    (main env fuel).trace.countP Event.isSwap = n ∧
    (main env 0).trace.countP Event.isDraw = 0 ∧
    (main env 0).trace.countP Event.isSwap = 0 := by
  rw [main_exact env n fuel h hf h0 hn, main_zero env h]
  refine ⟨rfl, ?_, ?_, ?_, ?_⟩
  · simp [countP_replicate_flatten, setup_calls, iteration_calls, frame_calls, Event.isDraw]
  · simp [countP_replicate_flatten, setup_calls, iteration_calls, frame_calls, Event.isSwap]
  · simp [setup_calls, Event.isDraw]
  · simp [setup_calls, Event.isSwap]

/-- C3 on the sample worlds: closing after two frames gives two draws and two swaps and
`main` returns 0; a window already closed before the first frame gives no draw. -/
theorem C3_draws_n_frames_then_shuts_down_witness :
    ((main (sampleEnv 2) 3).res = .ret 0 ∧
      (main (sampleEnv 2) 3).trace.countP Event.isDraw = 2 ∧
      (main (sampleEnv 2) 3).trace.countP Event.isSwap = 2) ∧
    ((main (sampleEnv 0) 1).res = .ret 0 ∧
      (main (sampleEnv 0) 1).trace.countP Event.isDraw = 0 ∧
      (main (sampleEnv 0) 1).trace.getLast? = some .glfwTerminate) :=
  have a := C3_draws_n_frames_then_shuts_down (sampleEnv 2) 2 3 (by decide) (by decide)
    (by decide) (by decide)
  have b := C3_draws_n_frames_then_shuts_down (sampleEnv 0) 0 1 (by decide) (by decide)
    (by decide) (by decide)
  ⟨⟨by rw [a.1], a.2.1, a.2.2.1⟩, ⟨by rw [b.1], b.2.1, by rw [b.1]; simp⟩⟩

/-- C4. For every window pointer and every width and height,
`framebuffer_size_callback` issues the single call `glViewport(0, 0, width, height)` and
returns (the window does not occur in it), so that in whatever state it is invoked the
viewport becomes the rectangle at (0, 0) of that width and height.  When the setup succeeds,
`main` registers this callback on the created window with
`glfwSetFramebufferSizeCallback`, in the setup, before any call of the render loop. -/
theorem C4_resize_sets_viewport (env : Env) (fuel : Nat) (window : Ptr) (width height : Int) :
    framebuffer_size_callback window width height =
      ⟨[.glViewport 0 0 width height], .ret ()⟩ ∧
    (∀ s : GLState,
      (s.run (framebuffer_size_callback window width height).trace).viewport =
        some (0, 0, width, height)) ∧
    (SetupOK env →
      ∃ pre post : List Event,
        (main env fuel).trace =
          pre ++ .glfwSetFramebufferSizeCallback env.glfwCreateWindow
            .framebuffer_size_callback :: post ∧
        (∀ e ∈ pre, e.isLoopCall = false)) := by
  refine ⟨rfl, fun s => rfl, fun h => ?_⟩
  obtain ⟨n, tail, htr, _⟩ := main_ok_shape env fuel h
  refine ⟨(setup_calls env).take 39, [.glfwSwapInterval 1] ++
    ((List.replicate n
      (iteration_calls env.glfwCreateWindow env.glCreateProgram env.VAO)).flatten ++ tail),
    ?_, ?_⟩
  · rw [htr]
    simp [setup_calls]
  · simp [setup_calls, Event.isLoopCall]

/-- C4 on the sample world: a resize to 1024 by 768 sets the viewport to (0, 0, 1024, 768),
and the callback is registered on window 4096 before the loop. -/
theorem C4_resize_sets_viewport_witness :
    (GLState.init.run (framebuffer_size_callback 4096 1024 768).trace).viewport =
      some (0, 0, 1024, 768) ∧
    ∃ pre post : List Event,
      (main (sampleEnv 1) 4).trace =
        pre ++ .glfwSetFramebufferSizeCallback 4096 .framebuffer_size_callback :: post ∧
      (∀ e ∈ pre, e.isLoopCall = false) :=
  ⟨(C4_resize_sets_viewport (sampleEnv 1) 4 4096 1024 768).2.1 GLState.init,
   (C4_resize_sets_viewport (sampleEnv 1) 4 4096 1024 768).2.2 (by decide)⟩

/-- C5. In every run in which `glfwGetVersionString` and `glfwInit` succeed, the run has
exactly one call of `glfwCreateWindow`, namely
`glfwCreateWindow(800, 600, "Hello, Triangle!", NULL, NULL)`, and every call that takes a
window (`glfwMakeContextCurrent`, `glfwSetFramebufferSizeCallback`,
`glfwWindowShouldClose`, `glfwSwapBuffers`, `glfwDestroyWindow`) is given the window that
call returned.  When the setup succeeds that window is made the current context, and when
`main` returns it has been destroyed. -/
theorem C5_one_window (env : Env) (fuel : Nat)
    (hv : env.glfwGetVersionString ≠ none) (hi : env.glfwInit ≠ 0) :
    (main env fuel).trace.countP Event.isCreateWindow = 1 ∧
    Event.glfwCreateWindow 800 600 "Hello, Triangle!" NULL NULL env.glfwCreateWindow ∈
      (main env fuel).trace ∧
    (∀ e ∈ (main env fuel).trace, ∀ w : Ptr, e.window? = some w → w = env.glfwCreateWindow) ∧
    (SetupOK env → Event.glfwMakeContextCurrent env.glfwCreateWindow ∈ (main env fuel).trace) ∧
    ((main env fuel).res = .ret 0 →
      Event.glfwDestroyWindow env.glfwCreateWindow ∈ (main env fuel).trace) := by
  have hwin : ∀ e ∈ (main env fuel).trace, ∀ w : Ptr, e.window? = some w →
      w = env.glfwCreateWindow := by
    apply main_forall
    · simp [setup_calls, Event.window?]
    · simp [iteration_calls, frame_calls, Event.window?]
    · simp [Event.window?]
    · simp [Event.window?]
    · simp [Event.window?]
    · intro c _
      cases c <;> simp [Check.aftermath, Event.window?]
  by_cases h : SetupOK env
  · obtain ⟨n, tail, htr, hres⟩ := main_ok_shape env fuel h
    refine ⟨?_, ?_, hwin, fun _ => ?_, fun hret => ?_⟩
    · rw [htr]
      rcases hres with ⟨rfl, _⟩ | ⟨r, hr0, rfl, _⟩ <;>
        simp [countP_replicate_flatten, setup_calls, iteration_calls, frame_calls,
          Event.isCreateWindow]
    · rw [htr]
      simp [setup_calls]
    · rw [htr]
      simp [setup_calls]
    · rcases hres with ⟨_, hrun⟩ | ⟨r, hr0, rfl, _⟩
      · rw [hrun] at hret
        cases hret
      · rw [htr]
        simp
  · obtain ⟨c, hcf, hprev⟩ := exists_first_failure env h
    have hrun := main_fail env fuel c hcf hprev
    refine ⟨?_, ?_, hwin, fun hok => absurd hok h, fun hret => ?_⟩
    · rw [hrun]
      cases c
      · exact absurd hv hcf
      · exact absurd hi hcf
      all_goals simp [setup_calls, Check.position, Check.aftermath, Event.isCreateWindow]
    · rw [hrun]
      cases c
      · exact absurd hv hcf
      · exact absurd hi hcf
      all_goals simp [setup_calls, Check.position, Check.aftermath]
    · rw [hrun] at hret
      cases hret

/-- C5 on the sample world that closes the window after one frame. -/
theorem C5_one_window_witness :
    (main (sampleEnv 1) 4).trace.countP Event.isCreateWindow = 1 ∧
    Event.glfwCreateWindow 800 600 "Hello, Triangle!" NULL NULL 4096 ∈
      (main (sampleEnv 1) 4).trace ∧
    (∀ e ∈ (main (sampleEnv 1) 4).trace, ∀ w : Ptr, e.window? = some w → w = 4096) ∧
    Event.glfwMakeContextCurrent 4096 ∈ (main (sampleEnv 1) 4).trace ∧
    Event.glfwDestroyWindow 4096 ∈ (main (sampleEnv 1) 4).trace :=
  have a := C5_one_window (sampleEnv 1) 4 (by decide) (by decide)
  ⟨a.1, a.2.1, a.2.2.1, a.2.2.2.1 (by decide), a.2.2.2.2 (by decide)⟩

/-- C6. In every run in which the setup succeeds, the GPU resource handles are created
in the setup and nothing after the setup creates or changes a resource: the run is the
setup followed by calls none of which is `glGenBuffers`, `glGenVertexArrays`,
`glCreateProgram`, `glCreateShader`, `glBufferData`, `glVertexAttribPointer`,
`glLinkProgram` or `glDeleteShader` (the only `glDelete*` call of the program), and every
`glUseProgram` and `glBindVertexArray` after the setup is given the program and the vertex
array obtained in the setup.  The setup itself holds one `glGenVertexArrays` call (for
`VAO`), one `glCreateProgram` call (for `program`) and one `glGenBuffers` call for each
of the two buffer handles `vertex_buffer` and `VBO`. -/
theorem C6_resources_created_at_startup_only (env : Env) (fuel : Nat) (h : SetupOK env) :
    ∃ rest : List Event,
      (main env fuel).trace = (main env 0).trace ++ rest ∧
      (∀ e ∈ rest, e.isResourceCall = false) ∧
      (∀ e ∈ rest, ∀ p : Nat, e = .glUseProgram p → p = env.glCreateProgram) ∧
      (∀ e ∈ rest, ∀ a : Nat, e = .glBindVertexArray a → a = env.VAO) ∧
      (main env 0).trace.filter Event.isCreateProgram =
        [.glCreateProgram env.glCreateProgram] ∧
      (main env 0).trace.filter Event.isGenVertexArrays = [.glGenVertexArrays 1 env.VAO] ∧
      (main env 0).trace.filter Event.isGenBuffers =
        [.glGenBuffers 1 env.vertex_buffer, .glGenBuffers 1 env.VBO] := by
  obtain ⟨n, tail, htr, hres⟩ := main_ok_shape env fuel h
  have htail : ∀ P : Event → Prop, (∀ r : Int, P (.glfwWindowShouldClose env.glfwCreateWindow r)) →
      P (.glfwDestroyWindow env.glfwCreateWindow) → P .glfwTerminate → ∀ e ∈ tail, P e := by
    intro P h1 h2 h3 e he
    rcases hres with ⟨rfl, _⟩ | ⟨r, _, rfl, _⟩
    · simp at he
    · simp only [List.mem_cons, List.mem_singleton, List.not_mem_nil, or_false] at he
      rcases he with rfl | rfl | rfl
      · exact h1 r
      · exact h2
      · exact h3
  refine ⟨(List.replicate n
      (iteration_calls env.glfwCreateWindow env.glCreateProgram env.VAO)).flatten ++ tail,
    ?_, ?_, ?_, ?_, ?_, ?_, ?_⟩
  · rw [htr, main_zero env h]
  · exact forall_mem_loop (fun e => e.isResourceCall = false) n _ tail
      (by simp [iteration_calls, frame_calls, Event.isResourceCall])
      (htail _ (fun _ => rfl) rfl rfl)
  · exact forall_mem_loop (fun e => ∀ p : Nat, e = .glUseProgram p → p = env.glCreateProgram)
      n _ tail (by simp [iteration_calls, frame_calls])
      (htail _ (by simp) (by simp) (by simp))
  · exact forall_mem_loop (fun e => ∀ a : Nat, e = .glBindVertexArray a → a = env.VAO)
      n _ tail (by simp [iteration_calls, frame_calls])
      (htail _ (by simp) (by simp) (by simp))
  · rw [main_zero env h]
    simp [setup_calls, List.filter, Event.isCreateProgram]
  · rw [main_zero env h]
    simp [setup_calls, List.filter, Event.isGenVertexArrays]
  · rw [main_zero env h]
    simp [setup_calls, List.filter, Event.isGenBuffers]

/-- C6 on the sample world that closes the window after two frames. -/
theorem C6_resources_created_at_startup_only_witness :
    SetupOK (sampleEnv 2) ∧
    ∃ rest : List Event,
      (main (sampleEnv 2) 5).trace = (main (sampleEnv 2) 0).trace ++ rest ∧
      (∀ e ∈ rest, e.isResourceCall = false) ∧
      (∀ e ∈ rest, ∀ p : Nat, e = .glUseProgram p → p = 3) ∧
      (∀ e ∈ rest, ∀ a : Nat, e = .glBindVertexArray a → a = 1) ∧
      (main (sampleEnv 2) 0).trace.filter Event.isCreateProgram = [.glCreateProgram 3] ∧
      (main (sampleEnv 2) 0).trace.filter Event.isGenVertexArrays =
        [.glGenVertexArrays 1 1] ∧
      (main (sampleEnv 2) 0).trace.filter Event.isGenBuffers =
        [.glGenBuffers 1 1, .glGenBuffers 1 2] :=
  ⟨by decide, C6_resources_created_at_startup_only (sampleEnv 2) 5 (by decide)⟩

/-- C7. `VERTICES` is six floats, the three positions (-0.5, -0.5), (0.5, -0.5),
(0, 0.5).  With 4-byte floats, every `glBufferData` call of a run uploads `VERTICES` with
byte count 24, every `glVertexAttribPointer` call describes attribute 0 as 2 floats with
stride 8 at offset 0, and every `glDrawArrays` call draws 3 vertices from index 0; the byte
count is the vertex count times the stride, and the 8 bytes read for each vertex
`i < 3`, from `8 * i`, lie inside the 24 uploaded bytes.  When the setup succeeds
the upload and the attribute description are in the run. -/
theorem C7_vertex_sizes_agree (env : Env) (fuel : Nat) (h4 : env.sizeof_float = 4) :
    VERTICES = [-0.5, -0.5, 0.5, -0.5, 0, 0.5] ∧
    VERTICES.length = 3 * 2 ∧
    sizeof_VERTICES env.sizeof_float = 24 ∧
    (∀ e ∈ (main env fuel).trace,
      (∀ (target : Const) (size : Nat) (data : List ℚ) (usage : Const),
        e = .glBufferData target size data usage → size = 24 ∧ data = VERTICES) ∧
      (∀ (index : Nat) (size : Int) (type normalized : Const) (stride pointer : Nat),
        e = .glVertexAttribPointer index size type normalized stride pointer →
          index = 0 ∧ size = 2 ∧ type = .GL_FLOAT ∧ stride = 8 ∧ pointer = 0) ∧
      (∀ (mode : Const) (first count : Int),
        e = .glDrawArrays mode first count → mode = .GL_TRIANGLES ∧ first = 0 ∧ count = 3)) ∧
    sizeof_VERTICES env.sizeof_float = 3 * (2 * env.sizeof_float) ∧
    (∀ i : Nat, i < 3 →
      0 + (2 * env.sizeof_float) * i + 2 * env.sizeof_float ≤
        sizeof_VERTICES env.sizeof_float) ∧
    (SetupOK env →
      Event.glBufferData .GL_ARRAY_BUFFER 24 VERTICES .GL_STATIC_DRAW ∈ (main env fuel).trace ∧
      Event.glVertexAttribPointer 0 2 .GL_FLOAT .GL_FALSE 8 0 ∈ (main env fuel).trace) := by
  have hsz4 : sizeof_VERTICES 4 = 24 := by
    simp [sizeof_VERTICES, VERTICES]
  have hsz : sizeof_VERTICES env.sizeof_float = 24 := by
    rw [h4, hsz4]
  refine ⟨?_, rfl, hsz, ?_, ?_, ?_, ?_⟩
  · norm_num [VERTICES]
  · apply main_forall
    · simp only [setup_calls, h4, hsz4]
      simp
      constructor
      · rintro _ _ _ _ _ rfl rfl _
        exact ⟨rfl, rfl⟩
      · rintro _ _ _ _ _ _ rfl rfl rfl _ rfl rfl
        exact ⟨rfl, rfl, rfl, rfl, rfl⟩
    · simp [iteration_calls, frame_calls]
    · simp
    · simp
    · simp
    · intro c _
      cases c <;> simp [Check.aftermath]
  · rw [hsz, h4]
  · intro i hi
    rw [hsz, h4]
    omega
  · intro h
    obtain ⟨n, tail, htr, _⟩ := main_ok_shape env fuel h
    rw [htr]
    simp [setup_calls, hsz4, h4]

/-- C7 on the sample world (4-byte floats) with one frame. -/
theorem C7_vertex_sizes_agree_witness :
    (sampleEnv 1).sizeof_float = 4 ∧
    sizeof_VERTICES (sampleEnv 1).sizeof_float = 24 ∧
    Event.glBufferData .GL_ARRAY_BUFFER 24 VERTICES .GL_STATIC_DRAW ∈
      (main (sampleEnv 1) 4).trace ∧
    Event.glVertexAttribPointer 0 2 .GL_FLOAT .GL_FALSE 8 0 ∈ (main (sampleEnv 1) 4).trace :=
  have a := C7_vertex_sizes_agree (sampleEnv 1) 4 rfl
  ⟨rfl, a.2.2.1, (a.2.2.2.2.2.2 (by decide)).1, (a.2.2.2.2.2.2 (by decide)).2⟩

/-- C9. On every run of `main` that has ended (by `exit` or by returning), the run has
exactly one call of `glfwTerminate` if and only if it has a call of `glfwInit` that
returned non-zero; it never has more than one; when it has one, that call is the last call
of the run.  When `glfwGetVersionString` returns `NULL` or `glfwInit` returns 0 the run
has no call of `glfwTerminate` (and exits with `EXIT_FAILURE`); on every later failure
`glfwTerminate` is the last call before `exit(EXIT_FAILURE)`. -/
theorem C9_terminate_exactly_when_initialised (env : Env) (fuel : Nat)
    (hended : (main env fuel).res ≠ .running) :
    ((main env fuel).trace.count .glfwTerminate = 1 ↔
      ∃ r : Int, r ≠ 0 ∧ Event.glfwInit r ∈ (main env fuel).trace) ∧
    (main env fuel).trace.count .glfwTerminate ≤ 1 ∧
    ((main env fuel).trace.count .glfwTerminate = 1 →
      (main env fuel).trace.getLast? = some .glfwTerminate) ∧
    (env.glfwGetVersionString = none ∨ env.glfwInit = 0 →
      Event.glfwTerminate ∉ (main env fuel).trace ∧
      (main env fuel).res = .exit .EXIT_FAILURE) ∧
    (env.glfwGetVersionString ≠ none → env.glfwInit ≠ 0 → ¬ SetupOK env →
      (main env fuel).trace.getLast? = some .glfwTerminate ∧
      (main env fuel).res = .exit .EXIT_FAILURE) := by
  by_cases h : SetupOK env
  · obtain ⟨n, tail, htr, hres⟩ := main_ok_shape env fuel h
    rcases hres with ⟨_, hrun⟩ | ⟨r, hr0, rfl, _⟩
    · exact absurd hrun hended
    have hcount : (main env fuel).trace.count .glfwTerminate = 1 := by
      rw [htr]
      simp [List.count, countP_replicate_flatten, setup_calls, iteration_calls, frame_calls]
    have hlast : (main env fuel).trace.getLast? = some .glfwTerminate := by
      rw [htr]
      simp [List.getLast?_append]
    refine ⟨⟨fun _ => ⟨env.glfwInit, h.2.1, ?_⟩, fun _ => hcount⟩, by omega, fun _ => hlast,
      ?_, fun _ _ hno => absurd h hno⟩
    · rw [htr]
      simp [setup_calls]
    · rintro (hv | hi)
      · exact absurd hv h.1
      · exact absurd hi h.2.1
  · obtain ⟨c, hcf, hprev⟩ := exists_first_failure env h
    have hrun := main_fail env fuel c hcf hprev
    have p1 := hprev .version
    have p2 := hprev .init
    rw [hrun]
    cases c <;> simp only [Check.position, Check.passes, ne_eq, not_not,
      Nat.lt_irrefl, false_implies, true_implies, Nat.reduceLT] at hcf p1 p2
    · simp [List.count, setup_calls, Check.position, Check.aftermath, hcf]
    · simp [List.count, setup_calls, Check.position, Check.aftermath, hcf, p1]
    all_goals
      simp [List.count, setup_calls, Check.position, Check.aftermath, p1, p2,
        List.getLast?_append]

/-- C9 on sample worlds: a normal run with one frame and a run whose fragment shader
fails each have one `glfwTerminate`, as their last call; a run whose `glfwInit` fails
has none. -/
theorem C9_terminate_exactly_when_initialised_witness :
    ((main (sampleEnv 1) 4).res ≠ .running ∧
      (main (sampleEnv 1) 4).trace.count .glfwTerminate = 1 ∧
      (main (sampleEnv 1) 4).trace.getLast? = some .glfwTerminate) ∧
    ((main badFragmentEnv 4).res ≠ .running ∧
      (main badFragmentEnv 4).trace.getLast? = some .glfwTerminate ∧
      (main badFragmentEnv 4).res = .exit .EXIT_FAILURE) ∧
    ((main noInitEnv 4).res ≠ .running ∧
      Event.glfwTerminate ∉ (main noInitEnv 4).trace) :=
  have a := C9_terminate_exactly_when_initialised (sampleEnv 1) 4 (by decide)
  have b := C9_terminate_exactly_when_initialised badFragmentEnv 4 (by decide)
  have c := C9_terminate_exactly_when_initialised noInitEnv 4 (by decide)
  ⟨⟨by decide, a.1.mpr ⟨1, by decide, by decide⟩,
      a.2.2.1 (a.1.mpr ⟨1, by decide, by decide⟩)⟩,
   ⟨by decide, b.2.2.2.2 (by decide) (by decide) (by decide)⟩,
   ⟨by decide, (c.2.2.2.1 (Or.inr rfl)).1⟩⟩

/-- C1. When one of the checked calls reports a failure (`glfwGetVersionString`
returns `NULL`, `glfwInit` returns 0, `glfwCreateWindow` returns `NULL`,
`gladLoadGLLoader` returns 0, `glGetString(GL_VERSION)` returns `NULL`, the compile status
of a shader is 0, the link status of the program is 0), `main` exits with
`EXIT_FAILURE`, and its run is: calls none of which is a failed check, then the first
failed check, then at most the fetch of the info log, then a line written to stderr that
begins with "error: ", then at most `glfwTerminate`.  Nothing else follows the failed
check, and the run has no call of the render loop (no `glDrawArrays`, no
`glfwSwapBuffers`).  Conversely, when no check fails, `main` does not exit with
`EXIT_FAILURE`, whatever the fuel. -/
theorem C1_failures_are_fatal (env : Env) (fuel : Nat) :
    ((env.glfwGetVersionString = none ∨ env.glfwInit = 0 ∨ env.glfwCreateWindow = NULL ∨
        env.gladLoadGLLoader = 0 ∨ env.glGetString = none ∨
        env.vertex_shader.compile_status = 0 ∨ env.fragment_shader.compile_status = 0 ∨
        env.link_status = 0) →
      (main env fuel).res = .exit .EXIT_FAILURE ∧
      (∃ (pre : List Event) (chk : Event) (log : List Event) (text : String)
          (term : List Event),
        (main env fuel).trace =
          pre ++ chk :: (log ++ .write .stderr ("error: " ++ text ++ "\n") :: term) ∧
        chk.isFailedCheck = true ∧
        (∀ e ∈ pre, e.isFailedCheck = false) ∧
        log.length ≤ 1 ∧ (∀ e ∈ log, e.isInfoLogQuery = true) ∧
        (term = [] ∨ term = [.glfwTerminate])) ∧
      (∀ e ∈ (main env fuel).trace,
        e.isDraw = false ∧ e.isSwap = false ∧ e.isLoopCall = false)) ∧
    (SetupOK env → (main env fuel).res ≠ .exit .EXIT_FAILURE) := by
  constructor
  · intro hfail
    have hno : ¬ SetupOK env := by
      rintro ⟨h1, h2, h3, h4, h5, h6, h7, h8⟩
      rcases hfail with h | h | h | h | h | h | h | h <;> contradiction
    obtain ⟨c, hcf, hprev⟩ := exists_first_failure env hno
    have hrun := main_fail env fuel c hcf hprev
    have p1 := hprev .version
    have p2 := hprev .init
    have p3 := hprev .window
    have p4 := hprev .glad
    have p5 := hprev .gl_version
    have p6 := hprev .vertex_shader
    have p7 := hprev .fragment_shader
    rw [hrun]
    refine ⟨rfl, ?_, ?_⟩
    · cases c <;> simp only [Check.position, Check.passes, NULL, ne_eq, not_not,
        Nat.lt_irrefl, false_implies, true_implies, Nat.reduceLT] at hcf p1 p2 p3 p4 p5 p6 p7
      · exact ⟨(setup_calls env).take 2, .glfwGetVersionString env.glfwGetVersionString, [],
          "unable to determine GLFW version", [], rfl,
          by simp [Event.isFailedCheck, hcf],
          by simp [setup_calls, Event.isFailedCheck], by simp, by simp, Or.inl rfl⟩
      · exact ⟨(setup_calls env).take 4, .glfwInit env.glfwInit, [],
          "unable to initialize GLFW", [], rfl,
          by simp [Event.isFailedCheck, hcf],
          by simp [setup_calls, Event.isFailedCheck, Option.isSome_iff_ne_none, p1], by simp, by simp, Or.inl rfl⟩
      · exact ⟨(setup_calls env).take 9,
          .glfwCreateWindow 800 600 "Hello, Triangle!" NULL NULL env.glfwCreateWindow, [],
          "unable to create window", [.glfwTerminate], rfl,
          by simp [Event.isFailedCheck, hcf, NULL],
          by simp [setup_calls, Event.isFailedCheck, Option.isSome_iff_ne_none, p1, p2], by simp, by simp, Or.inr rfl⟩
      · exact ⟨(setup_calls env).take 11,
          .gladLoadGLLoader .glfwGetProcAddress env.gladLoadGLLoader, [],
          "unable to initialize GLAD", [.glfwTerminate], rfl,
          by simp [Event.isFailedCheck, hcf],
          by simp [setup_calls, Event.isFailedCheck, Option.isSome_iff_ne_none, p1, p2, p3, NULL], by simp, by simp,
          Or.inr rfl⟩
      · exact ⟨(setup_calls env).take 12, .glGetString .GL_VERSION env.glGetString, [],
          "unable to determine OpenGL version", [.glfwTerminate], rfl,
          by simp [Event.isFailedCheck, hcf],
          by simp [setup_calls, Event.isFailedCheck, Option.isSome_iff_ne_none, p1, p2, p3, p4, NULL], by simp,
          by simp, Or.inr rfl⟩
      · exact ⟨(setup_calls env).take 20,
          .glGetShaderiv env.vertex_shader.glCreateShader .GL_COMPILE_STATUS
            env.vertex_shader.compile_status,
          [.glGetShaderInfoLog env.vertex_shader.glCreateShader 512 NULL
            env.vertex_shader.info_log],
          "failed to compile vertex shader, " ++ env.vertex_shader.info_log,
          [.glfwTerminate], rfl,
          by simp [Event.isFailedCheck, hcf],
          by simp [setup_calls, Event.isFailedCheck, Option.isSome_iff_ne_none, p1, p2, p3, p4, p5, NULL], by simp,
          by simp [Event.isInfoLogQuery], Or.inr rfl⟩
      · exact ⟨(setup_calls env).take 24,
          .glGetShaderiv env.fragment_shader.glCreateShader .GL_COMPILE_STATUS
            env.fragment_shader.compile_status,
          [.glGetShaderInfoLog env.fragment_shader.glCreateShader 512 NULL
            env.fragment_shader.info_log],
          "failed to compile vertex shader, " ++ env.fragment_shader.info_log,
          [.glfwTerminate], rfl,
          by simp [Event.isFailedCheck, hcf],
          by simp [setup_calls, Event.isFailedCheck, Option.isSome_iff_ne_none, p1, p2, p3, p4, p5, p6, NULL], by simp,
          by simp [Event.isInfoLogQuery], Or.inr rfl⟩
      · exact ⟨(setup_calls env).take 29,
          .glGetProgramiv env.glCreateProgram .GL_LINK_STATUS env.link_status,
          [.glGetProgramInfoLog env.glCreateProgram 512 NULL env.program_info_log],
          "failed to link shaders, " ++ env.program_info_log,
          [.glfwTerminate], rfl,
          by simp [Event.isFailedCheck, hcf],
          by simp [setup_calls, Event.isFailedCheck, Option.isSome_iff_ne_none, p1, p2, p3, p4, p5, p6, p7, NULL],
          by simp, by simp [Event.isInfoLogQuery], Or.inr rfl⟩
    · intro e he
      rcases List.mem_append.mp he with he | he
      · have hs : ∀ e ∈ setup_calls env,
            e.isDraw = false ∧ e.isSwap = false ∧ e.isLoopCall = false := by
          simp [setup_calls, Event.isDraw, Event.isSwap, Event.isLoopCall]
        exact hs e (List.mem_of_mem_take he)
      · have ha : ∀ d : Check, ∀ e ∈ d.aftermath env,
            e.isDraw = false ∧ e.isSwap = false ∧ e.isLoopCall = false := by
          intro d
          cases d <;> simp [Check.aftermath, Event.isDraw, Event.isSwap, Event.isLoopCall]
        exact ha c e he
  · intro h
    obtain ⟨n, tail, _, hres⟩ := main_ok_shape env fuel h
    rcases hres with ⟨_, hr⟩ | ⟨r, _, _, hr⟩ <;> rw [hr] <;> simp

/-- C1 on sample worlds: when `glfwCreateWindow` returns `NULL` the run exits with
`EXIT_FAILURE` and draws nothing; when every call succeeds the run does not exit with
`EXIT_FAILURE`. -/
theorem C1_failures_are_fatal_witness :
    ((main noWindowEnv 4).res = .exit .EXIT_FAILURE ∧
      ∀ e ∈ (main noWindowEnv 4).trace,
        e.isDraw = false ∧ e.isSwap = false ∧ e.isLoopCall = false) ∧
    (main (sampleEnv 1) 4).res ≠ .exit .EXIT_FAILURE :=
  have a := (C1_failures_are_fatal noWindowEnv 4).1 (Or.inr (Or.inr (Or.inl rfl)))
  ⟨⟨a.1, a.2.2⟩, (C1_failures_are_fatal (sampleEnv 1) 4).2 (by decide)⟩

end HelloTriangle
